import Mathlib

/-!
Verification of the flightctl imagebuilder service against its specification.

The Go sources are shallowly embedded: pure functions become Lean functions,
stateful orchestration becomes explicit state passing over a status record,
and effectful calls (Kubernetes API, catalog API, storage I/O) become outcome
oracles passed as parameters.  Machine integers do not overflow in the code
paths modelled here, so Nat and Int are used directly.  Times are modelled as
seconds (Nat) except where the code formats a wall-clock timestamp, which is
modelled by the GoTime record.
-/

namespace Flightctl

/-! ### Go strings package helpers (over String.data, faithful for the ASCII
inputs handled by the service).  Index comparisons mirror byte indices: for the
relative order of two positions in one string, character indices agree with
byte indices. -/

/-- Mirrors Go strings.HasPrefix. -/
def goHasPre (s pre : String) : Bool := pre.data.isPrefixOf s.data

/-- Mirrors Go strings.TrimPrefix. -/
def goTrimPre (s pre : String) : String :=
  if goHasPre s pre then ⟨s.data.drop pre.data.length⟩ else s

/-- Mirrors Go strings.HasSuffix. -/
def goHasSuf (s suf : String) : Bool := suf.data.isSuffixOf s.data

/-- Mirrors Go strings.TrimSuffix. -/
def goTrimSuf (s suf : String) : String :=
  if goHasSuf s suf then ⟨s.data.take (s.data.length - suf.data.length)⟩ else s

/-- Mirrors Go strings.Contains for a single-character substring. -/
def goContainsChar (s : String) (c : Char) : Bool := s.data.contains c

/-- Mirrors Go strings.Index for a single-character substring: index of the
first occurrence, or -1. -/
def goIndexChar (s : String) (c : Char) : Int :=
  go s.data 0 where
  go : List Char → Nat → Int
  | [], _ => -1
  | x :: xs, i => if x = c then (i : Int) else go xs (i + 1)

/-- Mirrors Go strings.LastIndex for a single-character substring: index of the
last occurrence, or -1. -/
def goLastIndexChar (s : String) (c : Char) : Int :=
  go s.data 0 (-1) where
  go : List Char → Nat → Int → Int
  | [], _, acc => acc
  | x :: xs, i, acc => go xs (i + 1) (if x = c then (i : Int) else acc)

/-! ### Wall-clock timestamps and the build tag format -/

/-- A wall-clock timestamp, as used by metadata.creationTimestamp. -/
structure GoTime where
  year : Nat
  month : Nat
  day : Nat
  hour : Nat
  minute : Nat
  second : Nat
deriving Repr, DecidableEq

/-- Zero-padded two-digit decimal, as produced by Go time formatting. -/
def pad2 (n : Nat) : String := if n < 10 then "0" ++ toString n else toString n

/-- Zero-padded four-digit decimal, as produced by Go time formatting. -/
def pad4 (n : Nat) : String :=
  if n < 10 then "000" ++ toString n
  else if n < 100 then "00" ++ toString n
  else if n < 1000 then "0" ++ toString n
  else toString n

/-- Mirrors Go t.Format with layout 20060102-150405, i.e. YYYYMMDD-HHMMSS. -/
def formatBuildTag (t : GoTime) : String :=
  pad4 t.year ++ pad2 t.month ++ pad2 t.day ++ "-" ++
    pad2 t.hour ++ pad2 t.minute ++ pad2 t.second

/-- The tag chosen by generateImageName: the formatted creation timestamp when
present, otherwise the literal latest. -/
def tagFor (creationTimestamp : Option GoTime) : String :=
  match creationTimestamp with
  | some t => formatBuildTag t
  | none => "latest"

/-! ### ContainerBuilder.generateImageName (container_builder.go) -/

/-- Embeds ContainerBuilder.generateImageName.  Arguments: the optional
spec.containerRegistry.url (none models a nil ContainerRegistry), the
metadata name and the optional creation timestamp. -/
def generateImageName (containerRegistryUrl : Option String) (name : String)
    (creationTimestamp : Option GoTime) : String :=
  match containerRegistryUrl with
  | some url =>
    if url ≠ "" then
      let r1 := goTrimPre url "https://"
      let r2 := goTrimPre r1 "http://"
      let registryURL := goTrimSuf r2 "/"
      if goContainsChar registryURL '/' then
        if goContainsChar registryURL ':' &&
            decide (goIndexChar registryURL ':' > goLastIndexChar registryURL '/') then
          registryURL
        else
          registryURL ++ ":" ++ tagFor creationTimestamp
      else
        registryURL ++ "/" ++ name ++ ":" ++ tagFor creationTimestamp
    else
      name ++ ":" ++ tagFor creationTimestamp
  | none => name ++ ":" ++ tagFor creationTimestamp

/-! ### Extension mapping and storage path resolution (bootc_builder.go,
storage_manager.go) -/

/-- The literal map in getImageExtensionFromString. -/
def extensionPairs : List (String × String) :=
  [("iso", "iso"), ("qcow2", "qcow2"), ("vmdk", "vmdk"),
   ("raw", "raw"), ("ami", "raw"), ("tar", "tar")]

/-- Embeds getImageExtensionFromString. -/
def getImageExtensionFromString (imageType : String) : String :=
  match extensionPairs.lookup imageType with
  | some ext => ext
  | none => imageType

/-- Go filepath.Join for two clean, slash-free-at-the-ends components, as used
by the storage manager. -/
def pathJoin (a b : String) : String := a ++ "/" ++ b

/-- Storage backend configuration (config.ImageBuilder.Storage). -/
structure StorageConfig where
  type : String
  localPath : String
  pvcName : String
  s3Bucket : String
deriving Repr, DecidableEq

/-- Embeds the sentinel branch of StorageManager.StoreBootcImage: the path a
sentinel uploaded:name/type resolves to.  Returns none when the storage type is
unsupported (the Go code returns an error there). -/
def resolveUploadedPath (storage : StorageConfig) (imageName imageType : String) :
    Option String :=
  if storage.type = "local" then
    let basePath := if storage.localPath = "" then "/var/lib/flightctl/images"
      else storage.localPath
    some (pathJoin (pathJoin basePath imageName)
      (imageType ++ "." ++ getImageExtensionFromString imageType))
  else if storage.type = "pvc" then
    let basePath := "/mnt/pvc/" ++ storage.pvcName
    some (pathJoin (pathJoin basePath imageName)
      (imageType ++ "." ++ getImageExtensionFromString imageType))
  else if storage.type = "s3" then
    some ("s3://" ++ storage.s3Bucket ++ "/" ++ imageName ++ "/" ++
      imageType ++ "." ++ getImageExtensionFromString imageType)
  else none

/-- Embeds StorageManager.StoreBootcImage restricted to its sentinel branch,
the only branch reached for bootc results produced by BootcBuilder (whose
result paths always begin with the uploaded: marker).  A none storage
configuration models a nil config.ImageBuilder.Storage. -/
def storeBootcImageSentinel (storage : Option StorageConfig)
    (imageName sourceFile imageType : String) : Option String :=
  if goHasPre sourceFile "uploaded:" then
    match storage with
    | none => none
    | some st => resolveUploadedPath st imageName imageType
  else none

/-! ### ImageBuild data model (api types, as used by the imagebuilder) -/

/-- A stored disk-image reference (api.BootcImageRef). -/
structure BootcImageRef where
  type : String
  architecture : Option String
  storageRef : String
deriving Repr, DecidableEq

/-- A requested disk-image export (api.BootcExport). -/
structure BootcExport where
  type : String
  architecture : Option String
deriving Repr, DecidableEq

/-- The mutable status subresource (api.ImageBuildStatus).  Option models nil
pointers; times are seconds. -/
structure ImageBuildStatus where
  phase : Option String := none
  message : Option String := none
  containerImageRef : Option String := none
  bootcImageRefs : Option (List BootcImageRef) := none
  startTime : Option Nat := none
  completionTime : Option Nat := none
  logs : Option (List String) := none
deriving Repr, DecidableEq

/-- The spec fields consumed by the orchestrator and managers. -/
structure ImageBuildSpecM where
  hasFlightctlConfig : Bool
  containerRegistryUrl : Option String
  bootcExports : Option (List BootcExport)
deriving Repr, DecidableEq

/-- An ImageBuild resource as observed by the service.  Annotations are an
association list without duplicate keys (Go map); none models a nil map. -/
structure ImageBuildM where
  name : String
  annotations : Option (List (String × String))
  creationTimestamp : Option GoTime
  spec : ImageBuildSpecM
  status : Option ImageBuildStatus
deriving Repr, DecidableEq

/-! ### Orchestrator status operations (orchestrator.go).  Each embeds one
status-mutating method: the Go methods first replace a nil Status with an
empty one, mutate fields, then replace the status subresource through the
API; a failed API write only logs, so the resulting local status is the
authoritative value modelled here. -/

/-- Embeds Orchestrator.updateStatus: sets phase and message, and sets
startTime to now exactly when phase is Building and startTime is unset. -/
def updateStatus (st : Option ImageBuildStatus) (phase message : String)
    (now : Nat) : ImageBuildStatus :=
  let s := st.getD {}
  let s := { s with phase := some phase, message := some message }
  if phase = "Building" ∧ s.startTime = none then { s with startTime := some now }
  else s

/-- Embeds Orchestrator.updateStatusWithContainerImage. -/
def updateStatusWithContainerImage (st : Option ImageBuildStatus)
    (containerImageRef : String) : ImageBuildStatus :=
  let s := st.getD {}
  { s with containerImageRef := some containerImageRef,
           phase := some "Pushing",
           message := some "Container image built successfully" }

/-- Embeds Orchestrator.completeBuild. -/
def completeBuild (st : Option ImageBuildStatus) (containerImageRef : String)
    (bootcRefs : List BootcImageRef) (now : Nat) : ImageBuildStatus :=
  let s := st.getD {}
  let s := { s with phase := some "Completed",
                    message := some "Image build completed successfully",
                    containerImageRef := some containerImageRef,
                    completionTime := some now }
  if bootcRefs.length > 0 then { s with bootcImageRefs := some bootcRefs } else s

/-- Embeds Orchestrator.failBuild: errMsg is the text of the build error and
logs the lines exposed by its Logs method (empty when the error carries
none). -/
def failBuild (st : Option ImageBuildStatus) (errMsg : String)
    (logs : List String) (now : Nat) : ImageBuildStatus :=
  let s := st.getD {}
  let s := { s with phase := some "Failed",
                    message := some ("Build failed: " ++ errMsg),
                    completionTime := some now }
  if logs.length > 0 then { s with logs := some logs } else s

/-- Embeds the status mutation of Orchestrator.CancelBuild: phase Cancelled,
a reasoned message, completion time, and any logs collected from pods before
teardown. -/
def cancelBuildStatus (st : Option ImageBuildStatus) (reason : String)
    (logs : List String) (now : Nat) : ImageBuildStatus :=
  let s := st.getD {}
  let s := { s with phase := some "Cancelled",
                    message := some ("Build cancelled: " ++ reason),
                    completionTime := some now }
  if logs.length > 0 then { s with logs := some logs } else s

/-- Embeds the status reset performed by Orchestrator.RebuildImage before it
re-enters BuildImage (executed only when Status is non-nil). -/
def rebuildResetStatus (st : Option ImageBuildStatus) : Option ImageBuildStatus :=
  match st with
  | none => none
  | some s => some { s with phase := none, message := none,
                            containerImageRef := none, bootcImageRefs := none,
                            completionTime := none }

/-- Outcome of the final status write inside CancelBuild: an optional
transport error and the HTTP status code of the reply. -/
structure CancelWriteOutcome where
  writeErr : Option String
  statusCode : Nat
deriving Repr, DecidableEq

/-- Embeds the return value of Orchestrator.CancelBuild.  Pod-log collection,
job and configmap deletion and the annotation patch only log their failures;
the returned error is determined by the final status write, and on full
success the method still returns the build-cancelled error. -/
def cancelBuildErrorResult (w : CancelWriteOutcome) (reason : String) :
    Option String :=
  match w.writeErr with
  | some e => some ("failed to update ImageBuild status: " ++ e)
  | none =>
    if w.statusCode ≠ 200 then
      some ("failed to update ImageBuild status, status code: " ++
        toString w.statusCode)
    else
      some ("build cancelled: " ++ reason)

/-! ### BootcBuilder (bootc_builder.go) -/

/-- Embeds getArchitecture: defaults a nil architecture to x86_64. -/
def getArchitecture (arch : Option String) : String := arch.getD "x86_64"

/-- Result of one bootc image build (BootcImageResult). -/
structure BootcImageResult where
  type : String
  architecture : String
  path : String
deriving Repr, DecidableEq

/-- Embeds BootcBuilder.buildBootcImage with the workload outcome as an
oracle: none means the job completed, some (msg, logs) means WatchJob failed
with that error and those harvested pod logs.  On success the result path is
the uploaded: sentinel written by the source. -/
def buildBootcImage (name : String) (e : BootcExport)
    (fail : Option (String × List String)) :
    Except (String × List String) BootcImageResult :=
  match fail with
  | some (msg, logs) =>
    .error ("failed to build bootc image type=" ++ e.type ++ ": " ++ msg, logs)
  | none =>
    .ok { type := e.type, architecture := getArchitecture e.architecture,
          path := "uploaded:" ++ name ++ "/" ++ e.type }

/-- Embeds BootcBuilder.BuildBootcImages: sequential builds, aborting on the
first failing export. -/
def buildBootcImages (name : String)
    (failOf : BootcExport → Option (String × List String)) :
    List BootcExport → Except (String × List String) (List BootcImageResult)
  | [] => .ok []
  | e :: es =>
    match buildBootcImage name e (failOf e) with
    | .error err => .error err
    | .ok r =>
      match buildBootcImages name failOf es with
      | .error err => .error err
      | .ok rs => .ok (r :: rs)

/-! ### Orchestrator.BuildImage (orchestrator.go) -/

/-- The results of the isCancelled polls BuildImage performs, one per stage
boundary in source order.  Each poll re-reads the resource from the catalog;
the oracle records what each observation returned. -/
structure CancelPolls where
  atStart : Bool
  beforeCert : Bool
  beforeGen : Bool
  beforeContainer : Bool
  beforeBootc : Bool
deriving Repr, DecidableEq

/-- The outcomes of the effectful stage calls made by one BuildImage run:
certificate request, containerfile generation, container build (failure
carries harvested logs), per-export bootc workload outcome, per-result
storage resolution (none models a StoreBootcImage error), logs collected by a
cancellation, and the cancellation status write outcome. -/
structure BuildStageOutcomes where
  certOutcome : Except String (String × String)
  genOutcome : Except String String
  containerOutcome : Except (String × List String) String
  exportFail : BootcExport → Option (String × List String)
  storeOutcome : BootcImageResult → Option String
  cancelLogs : List String
  cancelWrite : CancelWriteOutcome

/-- Embeds Orchestrator.BuildImage end to end: returns the final local status
of the build together with the error value BuildImage returns (none models a
nil error).  Cancellation branches delegate to CancelBuild, embedded by
cancelBuildStatus and cancelBuildErrorResult. -/
def buildImage (polls : CancelPolls) (env : BuildStageOutcomes)
    (ib : ImageBuildM) (now : Nat) : ImageBuildStatus × Option String :=
  if polls.atStart then
    (cancelBuildStatus ib.status "Build cancelled before starting"
       env.cancelLogs now,
     cancelBuildErrorResult env.cancelWrite "Build cancelled before starting")
  else
  let st1 : Option ImageBuildStatus :=
    some (updateStatus ib.status "Building" "Starting image build process" now)
  if ib.spec.hasFlightctlConfig ∧ polls.beforeCert then
    (cancelBuildStatus st1 "Build cancelled during certificate request"
       env.cancelLogs now,
     cancelBuildErrorResult env.cancelWrite
       "Build cancelled during certificate request")
  else
  match (if ib.spec.hasFlightctlConfig then env.certOutcome.map some
         else .ok none : Except String (Option (String × String))) with
  | .error e =>
    (failBuild st1 ("failed to request enrollment certificate: " ++ e) [] now,
     some ("failed to request enrollment certificate: " ++ e))
  | .ok _ =>
    if polls.beforeGen then
      (cancelBuildStatus st1 "Build cancelled before Containerfile generation"
         env.cancelLogs now,
       cancelBuildErrorResult env.cancelWrite
         "Build cancelled before Containerfile generation")
    else
    match env.genOutcome with
    | .error e =>
      (failBuild st1 ("failed to generate Containerfile: " ++ e) [] now,
       some ("failed to generate Containerfile: " ++ e))
    | .ok _ =>
      if polls.beforeContainer then
        (cancelBuildStatus st1 "Build cancelled before container image build"
           env.cancelLogs now,
         cancelBuildErrorResult env.cancelWrite
           "Build cancelled before container image build")
      else
      match env.containerOutcome with
      | .error (e, logs) =>
        (failBuild st1 ("failed to build container image: " ++ e) logs now,
         some ("failed to build container image: " ++ e))
      | .ok containerImageRef =>
        let st2 : Option ImageBuildStatus :=
          some (updateStatusWithContainerImage st1 containerImageRef)
        match ib.spec.bootcExports with
        | some es =>
          if es.length > 0 then
            if polls.beforeBootc then
              (cancelBuildStatus st2
                 "Build cancelled before bootc image generation"
                 env.cancelLogs now,
               cancelBuildErrorResult env.cancelWrite
                 "Build cancelled before bootc image generation")
            else
            let st3 : Option ImageBuildStatus :=
              some (updateStatus st2 "GeneratingImages"
                "Building bootc disk images" now)
            match buildBootcImages ib.name env.exportFail es with
            | .error (e, logs) =>
              (failBuild st3 ("failed to build bootc images: " ++ e) logs now,
               some ("failed to build bootc images: " ++ e))
            | .ok results =>
              let bootcRefs : List BootcImageRef :=
                results.filterMap (fun r =>
                  (env.storeOutcome r).map (fun p =>
                    { type := r.type, architecture := some r.architecture,
                      storageRef := p }))
              (completeBuild st3 containerImageRef bootcRefs now, none)
          else (completeBuild st2 containerImageRef [] now, none)
        | none => (completeBuild st2 containerImageRef [] now, none)

/-! ### BuildManager (build_manager.go) -/

/-- Annotation lookup on an optional Go map. -/
def annLookup (ann : Option (List (String × String))) (k : String) :
    Option String :=
  match ann with
  | none => none
  | some l => l.lookup k

/-- Go delete on an optional Go map (callers guard against nil). -/
def annRemove (ann : Option (List (String × String))) (k : String) :
    Option (List (String × String)) :=
  match ann with
  | none => none
  | some l => some (l.filter (fun kv => kv.1 ≠ k))

/-- Embeds BuildManager.shouldProcessBuild. -/
def shouldProcessBuild (ib : ImageBuildM) : Bool :=
  match ib.status with
  | none => true
  | some st =>
    match st.phase with
    | none => true
    | some p => p == "" || p == "Pending"

/-- Embeds BuildManager.shouldCancelBuild. -/
def shouldCancelBuild (ib : ImageBuildM) : Bool :=
  match ib.status with
  | none => false
  | some st =>
    match st.phase with
    | none => false
    | some p =>
      if p == "Building" || p == "Pushing" || p == "GeneratingImages" then
        match annLookup ib.annotations "imagebuilder.flightctl.io/cancel" with
        | some v => v == "true"
        | none => false
      else false

/-- Embeds BuildManager.shouldRetryBuild. -/
def shouldRetryBuild (ib : ImageBuildM) : Bool :=
  match ib.status with
  | none => false
  | some st =>
    match st.phase with
    | none => false
    | some p =>
      if p == "Failed" then
        match annLookup ib.annotations "imagebuilder.flightctl.io/retry" with
        | some v => v == "true"
        | none => false
      else false

/-- A JSON patch operation issued against the catalog. -/
structure PatchOp where
  buildName : String
  op : String
  path : String
deriving Repr, DecidableEq

/-- The externally visible effects of one BuildManager reconcile tick:
the local copies handed to dispatched background orchestrator tasks, the
names passed to Orchestrator.CancelBuild, and every JSON patch issued against
the catalog during the tick. -/
structure TickEffects where
  dispatched : List ImageBuildM
  cancelled : List String
  patches : List PatchOp
deriving Repr, DecidableEq

/-- The empty effect set. -/
def TickEffects.none : TickEffects := ⟨[], [], []⟩

/-- Concatenation of effect sets in program order. -/
def TickEffects.append (a b : TickEffects) : TickEffects :=
  ⟨a.dispatched ++ b.dispatched, a.cancelled ++ b.cancelled,
   a.patches ++ b.patches⟩

/-- Embeds BuildManager.cleanupRecentlyCancelled: drops entries older than
two minutes (Nat time in seconds). -/
def cleanupRecentlyCancelled (now : Nat) (rc : List (String × Nat)) :
    List (String × Nat) :=
  rc.filter (fun p => ¬ (now - p.2 > 120))

/-- Embeds BuildManager.handleCancellation: skips a build cancelled within
the last two minutes, otherwise records the attempt and calls
Orchestrator.CancelBuild, which issues the JSON patch removing the cancel
annotation and writes status Cancelled. -/
def handleCancellation (now : Nat) (rc : List (String × Nat))
    (ib : ImageBuildM) : List (String × Nat) × TickEffects :=
  match rc.lookup ib.name with
  | some t =>
    if now - t < 120 then (rc, TickEffects.none)
    else
      ((ib.name, now) :: rc.filter (fun p => p.1 ≠ ib.name),
       ⟨[], [ib.name],
        [⟨ib.name, "remove",
          "/metadata/annotations/imagebuilder.flightctl.io~1cancel"⟩]⟩)
  | none =>
    ((ib.name, now) :: rc.filter (fun p => p.1 ≠ ib.name),
     ⟨[], [ib.name],
      [⟨ib.name, "remove",
        "/metadata/annotations/imagebuilder.flightctl.io~1cancel"⟩]⟩)

/-- Embeds BuildManager.handleRetry: removes the retry annotation from the
local in-memory copy only and dispatches a background ProcessBuild for it; no
patch is issued against the catalog. -/
def handleRetry (ib : ImageBuildM) : TickEffects :=
  ⟨[{ ib with annotations :=
        annRemove ib.annotations "imagebuilder.flightctl.io/retry" }], [], []⟩

/-- Embeds the per-build body of BuildManager.processPendingBuildsForOrg:
dispatch when processable, cancel when cancellable, retry when retriable. -/
def processOneBuild (now : Nat) (rc : List (String × Nat)) (ib : ImageBuildM) :
    List (String × Nat) × TickEffects :=
  let e1 : TickEffects :=
    if shouldProcessBuild ib then ⟨[ib], [], []⟩ else TickEffects.none
  let (rc2, e2) :=
    if shouldCancelBuild ib then handleCancellation now rc ib
    else (rc, TickEffects.none)
  let e3 : TickEffects :=
    if shouldRetryBuild ib then handleRetry ib else TickEffects.none
  (rc2, (e1.append e2).append e3)

/-- Embeds the loop of BuildManager.processPendingBuildsForOrg over the
listed builds. -/
def processBuildList (now : Nat) (rc : List (String × Nat)) :
    List ImageBuildM → List (String × Nat) × TickEffects
  | [] => (rc, TickEffects.none)
  | ib :: ibs =>
    let (rc1, e1) := processOneBuild now rc ib
    let (rc2, e2) := processBuildList now rc1 ibs
    (rc2, e1.append e2)

/-- Embeds one ProcessPendingBuilds tick over a single tenant: sweep the
dedup map, then classify every listed build. -/
def processTick (now : Nat) (rc : List (String × Nat))
    (builds : List ImageBuildM) : List (String × Nat) × TickEffects :=
  processBuildList now (cleanupRecentlyCancelled now rc) builds

/-! ### CleanupManager (cleanup_manager.go) -/

/-- A pod as observed by the cleanup reconciler. -/
structure PodM where
  name : String
  labels : List (String × String)
  creationTime : Nat
deriving Repr, DecidableEq

/-- Embeds the active-phase test of PerformInitialCleanup. -/
def isActiveBuildPhase (p : String) : Bool :=
  p == "Building" || p == "Queued" || p == "Pending"

/-- Embeds the active-set construction of PerformInitialCleanup: names of
builds whose status and phase are present and active. -/
def activeBuildNames (builds : List ImageBuildM) : List String :=
  (builds.filter (fun ib =>
    match ib.status with
    | some st =>
      match st.phase with
      | some p => isActiveBuildPhase p
      | none => false
    | none => false)).map (fun ib => ib.name)

/-- Embeds the per-pod body of the orphan-detection loop in
PerformInitialCleanup: some (job, configmap) when the pod marks that pair
orphaned, none when the pod is skipped. -/
def podOrphanCandidate (now : Nat) (active : List String) (pod : PodM) :
    Option (String × String) :=
  match pod.labels.lookup "job-name" with
  | none => none
  | some jobName =>
    if ¬ goHasPre jobName "build-" then none
    else
      let imageBuildName := goTrimPre jobName "build-"
      if active.contains imageBuildName then none
      else if now - pod.creationTime < 3600 then none
      else some (jobName, "containerfile-" ++ imageBuildName)

/-- Embeds the orphan-detection loop of PerformInitialCleanup over all listed
pods; the resulting first components are the jobs deleted, the second
components the configmaps deleted. -/
def collectOrphans (now : Nat) (active : List String) (pods : List PodM) :
    List (String × String) :=
  pods.filterMap (podOrphanCandidate now active)

/-! ### AssetIngest upload endpoint (http_server.go) -/

/-- One event of the multipart part stream: a metadata field, the file part,
or a read error from the stream. -/
inductive UploadEvent where
  | field (name value : String)
  | file (filename : String)
  | readError
deriving Repr, DecidableEq

/-- An upload request as seen by the middleware and handler: the
Authorization header (empty models an absent header, as Go Header.Get does),
whether MultipartReader creation succeeded, and the part stream. -/
structure UploadRequest where
  authHeader : String
  multipartOk : Bool
  events : List UploadEvent
deriving Repr, DecidableEq

/-- The stored reference returned by the storage backend on success. -/
structure StoredRef where
  storageType : String
  storagePath : String
  size : Int
deriving Repr, DecidableEq

/-- The JSON success summary written by handleUploadArtifact. -/
structure UploadSummary where
  success : Bool
  imageName : String
  imageType : String
  storageType : String
  storagePath : String
  size : Int
deriving Repr, DecidableEq

/-- The observable outcome of an upload request: HTTP status, the path
written to the storage backend (none when nothing was handed to storage), and
the success summary when one was returned. -/
structure UploadResponse where
  status : Nat
  stored : Option String
  summary : Option UploadSummary
deriving Repr, DecidableEq

/-- Embeds the part-reading loop of handleUploadArtifact: metadata fields are
read into memory, unknown fields are skipped, the loop stops at the first
file part, and a stream error aborts with a 400.  Returns the collected
imageName, imageType, architecture and the file part filename if one was
reached. -/
def scanUploadEvents : String → String → String →
    List UploadEvent → Except Unit (String × String × String × Option String)
  | iN, iT, aR, [] => .ok (iN, iT, aR, none)
  | _, _, _, .readError :: _ => .error ()
  | iN, iT, aR, .file fn :: _ => .ok (iN, iT, aR, some fn)
  | iN, iT, aR, .field n v :: rest =>
    if n = "imageName" then scanUploadEvents v iT aR rest
    else if n = "imageType" then scanUploadEvents iN v aR rest
    else if n = "architecture" then scanUploadEvents iN iT v rest
    else scanUploadEvents iN iT aR rest

/-- Embeds handleUploadArtifact.  The storage call is an oracle from
(imageName, imageType) to the stored reference; none models a storage-backend
error. -/
def handleUploadArtifact (store : String → String → Option StoredRef)
    (req : UploadRequest) : UploadResponse :=
  if ¬ req.multipartOk then ⟨400, none, none⟩
  else
    match scanUploadEvents "" "" "" req.events with
    | .error _ => ⟨400, none, none⟩
    | .ok (imageName, imageType, _arch, filePart) =>
      if imageName = "" ∨ imageType = "" then ⟨400, none, none⟩
      else
        match filePart with
        | none => ⟨400, none, none⟩
        | some _ =>
          match store imageName imageType with
          | none => ⟨500, none, none⟩
          | some ref =>
            ⟨200, some ref.storagePath,
             some ⟨true, imageName, imageType, ref.storageType,
                   ref.storagePath, ref.size⟩⟩

/-- Embeds uploadAuthMiddleware composed with handleUploadArtifact, i.e. the
full upload endpoint.  expectedToken is the UPLOAD_TOKEN environment value
(empty models an unset variable). -/
def uploadEndpoint (expectedToken : String)
    (store : String → String → Option StoredRef) (req : UploadRequest) :
    UploadResponse :=
  if expectedToken = "" then ⟨503, none, none⟩
  else if req.authHeader = "" then ⟨401, none, none⟩
  else if ¬ goHasPre req.authHeader "Bearer " then ⟨401, none, none⟩
  else if goTrimPre req.authHeader "Bearer " ≠ expectedToken then
    ⟨401, none, none⟩
  else handleUploadArtifact store req

/-! ### Helper lemmas about the Go string helpers -/

theorem goHasPre_append (pre t : String) : goHasPre (pre ++ t) pre = true := by
  simp [goHasPre, String.data_append, List.isPrefixOf_iff_prefix]

theorem goTrimPre_append (pre t : String) : goTrimPre (pre ++ t) pre = t := by
  simp only [goTrimPre, goHasPre_append, if_true]
  apply String.ext
  simp [String.data_append, List.drop_left]

theorem append_ne_empty_of_pre_ne (pre t : String) (h : pre ≠ "") :
    pre ++ t ≠ "" := by
  intro hc
  apply h
  apply String.ext
  have := congrArg String.data hc
  simp only [String.data_append] at this
  rcases List.append_eq_nil.mp this with ⟨h1, _⟩
  exact h1

/-! ### Claim theorems -/

/-- Claim C3: the image-reference rule.  The code checks whether the index of
the FIRST colon exceeds the index of the last slash, while its own comment
(and the specification) require a tag AFTER THE LAST SLASH, i.e. the index of
the last colon.  The comment in the source even names
localhost:5000/myimage:v1 as an example that should be used as-is, yet for
this very input the code appends a second tag.  Both worked examples from
the specification evaluate as claimed; the general rule does not.  This
theorem evaluates the embedded code at the failing input and at the two
specification examples. -/
theorem C3_generateImageName_at_failing_input :
    generateImageName (some "localhost:5000/myimage:v1") "test-build" none
      = "localhost:5000/myimage:v1:latest" ∧
    "localhost:5000/myimage:v1:latest" ≠ "localhost:5000/myimage:v1" ∧
    generateImageName (some "https://quay.io/org/img:v1/") "b" none
      = "quay.io/org/img:v1" ∧
    generateImageName (some "localhost:5000") "b"
        (some ⟨2025, 1, 4, 14, 30, 22⟩)
      = "localhost:5000/b:20250104-143022" := by
  refine ⟨by decide, by decide, by decide, by decide⟩

/-- Claim C8: the extension mapping is exactly iso/qcow2/vmdk/raw as
themselves, ami as raw, tar as tar, with unknown types passed through; and
the uploaded: sentinel of a successful export resolves to the deterministic
path base/name/type.ext in every storage backend, so an ami export resolves
to a path ending in name/ami.raw. -/
theorem C8_extension_mapping_and_sentinel_path :
    getImageExtensionFromString "iso" = "iso" ∧
    getImageExtensionFromString "qcow2" = "qcow2" ∧
    getImageExtensionFromString "vmdk" = "vmdk" ∧
    getImageExtensionFromString "raw" = "raw" ∧
    getImageExtensionFromString "ami" = "raw" ∧
    getImageExtensionFromString "tar" = "tar" ∧
    (∀ t : String, t ≠ "iso" → t ≠ "qcow2" → t ≠ "vmdk" → t ≠ "raw" →
      t ≠ "ami" → t ≠ "tar" → getImageExtensionFromString t = t) ∧
    (∀ (cfg : StorageConfig) (name t : String), cfg.type = "local" →
      cfg.localPath ≠ "" →
      storeBootcImageSentinel (some cfg) name ("uploaded:" ++ (name ++ "/" ++ t)) t
        = some (cfg.localPath ++ "/" ++ name ++ "/" ++
            (t ++ "." ++ getImageExtensionFromString t))) ∧
    (∀ (cfg : StorageConfig) (name t : String), cfg.type = "pvc" →
      storeBootcImageSentinel (some cfg) name ("uploaded:" ++ (name ++ "/" ++ t)) t
        = some ("/mnt/pvc/" ++ cfg.pvcName ++ "/" ++ name ++ "/" ++
            (t ++ "." ++ getImageExtensionFromString t))) ∧
    (∀ (cfg : StorageConfig) (name t : String), cfg.type = "s3" →
      storeBootcImageSentinel (some cfg) name ("uploaded:" ++ (name ++ "/" ++ t)) t
        = some ("s3://" ++ cfg.s3Bucket ++ "/" ++ name ++ "/" ++ t ++ "." ++
            getImageExtensionFromString t)) ∧
    storeBootcImageSentinel (some ⟨"pvc", "", "vol", ""⟩) "b2" "uploaded:b2/ami" "ami"
      = some "/mnt/pvc/vol/b2/ami.raw" ∧
    goHasSuf "/mnt/pvc/vol/b2/ami.raw" ("b2" ++ "/ami.raw") = true := by
  refine ⟨by decide, by decide, by decide, by decide, by decide, by decide,
    ?_, ?_, ?_, ?_, by decide, by decide⟩
  · intro t h1 h2 h3 h4 h5 h6
    have e1 : (t == "iso") = false := beq_eq_false_iff_ne.mpr h1
    have e2 : (t == "qcow2") = false := beq_eq_false_iff_ne.mpr h2
    have e3 : (t == "vmdk") = false := beq_eq_false_iff_ne.mpr h3
    have e4 : (t == "raw") = false := beq_eq_false_iff_ne.mpr h4
    have e5 : (t == "ami") = false := beq_eq_false_iff_ne.mpr h5
    have e6 : (t == "tar") = false := beq_eq_false_iff_ne.mpr h6
    simp [getImageExtensionFromString, extensionPairs, List.lookup,
      e1, e2, e3, e4, e5, e6]
  · intro cfg name t htype hbase
    simp [storeBootcImageSentinel, goHasPre_append, resolveUploadedPath,
      htype, hbase, pathJoin]
  · intro cfg name t htype
    have hnotlocal : cfg.type ≠ "local" := by rw [htype]; decide
    simp [storeBootcImageSentinel, goHasPre_append, resolveUploadedPath,
      htype, hnotlocal, pathJoin]
  · intro cfg name t htype
    have hnotlocal : cfg.type ≠ "local" := by rw [htype]; decide
    have hnotpvc : cfg.type ≠ "pvc" := by rw [htype]; decide
    simp [storeBootcImageSentinel, goHasPre_append, resolveUploadedPath,
      htype, hnotlocal, hnotpvc]

/-- Claim C8 witness: the theorem applied at concrete inputs, discharging
its hypotheses there. -/
theorem C8_witness :
    getImageExtensionFromString "ova" = "ova" ∧
    storeBootcImageSentinel (some ⟨"local", "/data", "", ""⟩) "b"
        ("uploaded:" ++ ("b" ++ "/" ++ "ami")) "ami"
      = some ("/data" ++ "/" ++ "b" ++ "/" ++
          ("ami" ++ "." ++ getImageExtensionFromString "ami")) ∧
    storeBootcImageSentinel (some ⟨"s3", "", "", "bkt"⟩) "b"
        ("uploaded:" ++ ("b" ++ "/" ++ "iso")) "iso"
      = some ("s3://" ++ "bkt" ++ "/" ++ "b" ++ "/" ++ "iso" ++ "." ++
          getImageExtensionFromString "iso") := by
  refine ⟨?_, ?_, ?_⟩
  · exact C8_extension_mapping_and_sentinel_path.2.2.2.2.2.2.1 "ova"
      (by decide) (by decide) (by decide) (by decide) (by decide) (by decide)
  · exact C8_extension_mapping_and_sentinel_path.2.2.2.2.2.2.2.1
      ⟨"local", "/data", "", ""⟩ "b" "ami" rfl (by decide)
  · exact C8_extension_mapping_and_sentinel_path.2.2.2.2.2.2.2.2.2.1
      ⟨"s3", "", "", "bkt"⟩ "b" "iso" rfl

/-- Claim C9: Orchestrator.CancelBuild never returns a nil error; when the
final status write succeeds it returns the build-cancelled error carrying
the reason. -/
theorem C9_cancelBuild_always_errors :
    (∀ (w : CancelWriteOutcome) (reason : String),
      cancelBuildErrorResult w reason ≠ none) ∧
    (∀ (w : CancelWriteOutcome) (reason : String),
      w.writeErr = none → w.statusCode = 200 →
      cancelBuildErrorResult w reason = some ("build cancelled: " ++ reason)) := by
  constructor
  · intro w reason
    unfold cancelBuildErrorResult
    cases h : w.writeErr with
    | some e => simp
    | none => by_cases hc : w.statusCode = 200 <;> simp [hc]
  · intro w reason herr hcode
    unfold cancelBuildErrorResult
    rw [herr, hcode]
    simp

/-- Claim C9 witness: the theorem applied to a fully successful cancellation
with reason given by the build manager. -/
theorem C9_witness :
    cancelBuildErrorResult ⟨none, 200⟩ "Build cancelled by user request" ≠ none ∧
    cancelBuildErrorResult ⟨none, 200⟩ "Build cancelled by user request"
      = some ("build cancelled: " ++ "Build cancelled by user request") :=
  ⟨C9_cancelBuild_always_errors.1 ⟨none, 200⟩ "Build cancelled by user request",
   C9_cancelBuild_always_errors.2 ⟨none, 200⟩ "Build cancelled by user request"
     rfl rfl⟩

/-- Claim C5 counterexample: the status reset performed by retry
(Orchestrator.RebuildImage) does not zero start_time, a mutable status
field: a Failed status with start_time 5 keeps start_time 5 after the
reset.  This refutes the clause that retry zeros the mutable status fields;
it zeros phase, message, container_image_ref, bootc_image_refs and
completion_time only. -/
theorem C5_counterexample_retry_keeps_startTime :
    Option.map ImageBuildStatus.startTime
      (rebuildResetStatus (some
        { phase := some "Failed", message := some "Build failed: x",
          containerImageRef := some "img", bootcImageRefs := none,
          startTime := some 5, completionTime := some 9,
          logs := some ["line"] })) = some (some 5) ∧
    some 5 ≠ (none : Option Nat) := by
  refine ⟨by decide, by decide⟩

/-- Claim C5 as amended: start_time is set exactly on the first transition
into Building and never overwritten; completion_time is set on every
transition into a terminal phase; no status operation clears either field;
and retry (RebuildImage) zeros exactly phase, message, container_image_ref,
bootc_image_refs and completion_time, leaving start_time and logs intact. -/
theorem C5_amended_time_field_invariants :
    (∀ st msg now, (st.getD {}).startTime = none →
      (updateStatus st "Building" msg now).startTime = some now) ∧
    (∀ st p msg now t, (st.getD {}).startTime = some t →
      (updateStatus st p msg now).startTime = some t) ∧
    (∀ st p msg now, p ≠ "Building" →
      (updateStatus st p msg now).startTime = (st.getD {}).startTime) ∧
    (∀ st ref refs now, (completeBuild st ref refs now).completionTime = some now) ∧
    (∀ st e logs now, (failBuild st e logs now).completionTime = some now) ∧
    (∀ st r logs now, (cancelBuildStatus st r logs now).completionTime = some now) ∧
    (∀ st ref t, (st.getD {}).startTime = some t →
      (updateStatusWithContainerImage st ref).startTime = some t) ∧
    (∀ st ref refs now t, (st.getD {}).startTime = some t →
      (completeBuild st ref refs now).startTime = some t) ∧
    (∀ st e logs now t, (st.getD {}).startTime = some t →
      (failBuild st e logs now).startTime = some t) ∧
    (∀ st r logs now t, (st.getD {}).startTime = some t →
      (cancelBuildStatus st r logs now).startTime = some t) ∧
    (∀ st p msg now t, (st.getD {}).completionTime = some t →
      (updateStatus st p msg now).completionTime = some t) ∧
    (∀ st ref t, (st.getD {}).completionTime = some t →
      (updateStatusWithContainerImage st ref).completionTime = some t) ∧
    (∀ s : ImageBuildStatus, rebuildResetStatus (some s) =
      some { s with phase := none, message := none, containerImageRef := none,
                    bootcImageRefs := none, completionTime := none }) ∧
    rebuildResetStatus none = none := by
  refine ⟨?_, ?_, ?_, ?_, ?_, ?_, ?_, ?_, ?_, ?_, ?_, ?_, ?_, rfl⟩
  · intro st msg now h
    simp [updateStatus, h]
  · intro st p msg now t h
    simp only [updateStatus]
    split
    · next hc => rw [h] at hc; exact absurd hc.2 (by simp)
    · simpa using h
  · intro st p msg now h
    simp only [updateStatus]
    split
    · next hc => exact absurd hc.1 h
    · simp
  · intro st ref refs now
    unfold completeBuild
    split <;> rfl
  · intro st e logs now
    unfold failBuild
    split <;> rfl
  · intro st r logs now
    unfold cancelBuildStatus
    split <;> rfl
  · intro st ref t h
    simpa [updateStatusWithContainerImage] using h
  · intro st ref refs now t h
    unfold completeBuild
    split <;> simpa using h
  · intro st e logs now t h
    unfold failBuild
    split <;> simpa using h
  · intro st r logs now t h
    unfold cancelBuildStatus
    split <;> simpa using h
  · intro st p msg now t h
    simp only [updateStatus]
    split <;> simpa using h
  · intro st ref t h
    simpa [updateStatusWithContainerImage] using h
  · intro s
    rfl

/-- Claim C5 witness: the amended theorem applied at concrete inputs,
discharging its hypotheses there. -/
theorem C5_witness :
    (updateStatus none "Building" "m" 7).startTime = some 7 ∧
    (updateStatus (some { startTime := some 3 }) "Building" "m" 9).startTime
      = some 3 ∧
    (completeBuild (some { startTime := some 3 }) "img" [] 11).completionTime
      = some 11 ∧
    (completeBuild (some { startTime := some 3 }) "img" [] 11).startTime
      = some 3 ∧
    rebuildResetStatus (some { startTime := some 3, completionTime := some 11 })
      = some { phase := none, message := none, containerImageRef := none,
               bootcImageRefs := none, startTime := some 3,
               completionTime := none, logs := none } :=
  ⟨C5_amended_time_field_invariants.1 none "m" 7 rfl,
   C5_amended_time_field_invariants.2.1 (some { startTime := some 3 })
     "Building" "m" 9 3 rfl,
   C5_amended_time_field_invariants.2.2.2.1 (some { startTime := some 3 })
     "img" [] 11,
   C5_amended_time_field_invariants.2.2.2.2.2.2.2.1
     (some { startTime := some 3 }) "img" [] 11 3 rfl,
   C5_amended_time_field_invariants.2.2.2.2.2.2.2.2.2.2.2.2.1
     { startTime := some 3, completionTime := some 11 }⟩

/-! ### Lemmas about the bootc stage and the status operations, shared by the
claims about BuildImage -/

theorem completeBuild_phase (st : Option ImageBuildStatus) (ref : String)
    (refs : List BootcImageRef) (now : Nat) :
    (completeBuild st ref refs now).phase = some "Completed" := by
  simp only [completeBuild]
  split <;> rfl

theorem failBuild_phase (st : Option ImageBuildStatus) (e : String)
    (logs : List String) (now : Nat) :
    (failBuild st e logs now).phase = some "Failed" := by
  simp only [failBuild]
  split <;> rfl

theorem updateStatus_bootcRefs (st : Option ImageBuildStatus) (p m : String)
    (now : Nat) :
    (updateStatus st p m now).bootcImageRefs = (st.getD {}).bootcImageRefs := by
  simp only [updateStatus]
  split <;> rfl

theorem updateStatusWithContainerImage_bootcRefs (st : Option ImageBuildStatus)
    (ref : String) :
    (updateStatusWithContainerImage st ref).bootcImageRefs
      = (st.getD {}).bootcImageRefs := rfl

theorem completeBuild_bootcRefs_nil (st : Option ImageBuildStatus)
    (ref : String) (now : Nat) :
    (completeBuild st ref [] now).bootcImageRefs = (st.getD {}).bootcImageRefs := by
  simp [completeBuild]

theorem buildBootcImages_ok_of_all (name : String)
    (failOf : BootcExport → Option (String × List String))
    (es : List BootcExport) (h : ∀ e ∈ es, failOf e = none) :
    ∃ rs, buildBootcImages name failOf es = Except.ok rs := by
  induction es with
  | nil => exact ⟨[], rfl⟩
  | cons e es ih =>
    have he : failOf e = none := h e (by simp)
    obtain ⟨rs, hrs⟩ := ih (fun x hx => h x (by simp [hx]))
    exact ⟨{ type := e.type, architecture := getArchitecture e.architecture,
             path := "uploaded:" ++ name ++ "/" ++ e.type } :: rs,
           by simp [buildBootcImages, buildBootcImage, he, hrs]⟩

theorem buildBootcImages_error_of_exists (name : String)
    (failOf : BootcExport → Option (String × List String))
    (es : List BootcExport) (h : ∃ e ∈ es, failOf e ≠ none) :
    ∃ err, buildBootcImages name failOf es = Except.error err := by
  induction es with
  | nil =>
    rcases h with ⟨e, he, _⟩
    cases he
  | cons e es ih =>
    by_cases he : failOf e = none
    · rcases h with ⟨x, hx, hxf⟩
      rcases List.mem_cons.mp hx with h1 | h2
      · subst h1; exact absurd he hxf
      · obtain ⟨err, herr⟩ := ih ⟨x, h2, hxf⟩
        exact ⟨err, by simp [buildBootcImages, buildBootcImage, he, herr]⟩
    · obtain ⟨p, hp⟩ := Option.ne_none_iff_exists'.mp he
      obtain ⟨msg, logs⟩ := p
      exact ⟨("failed to build bootc image type=" ++ e.type ++ ": " ++ msg, logs),
             by simp [buildBootcImages, buildBootcImage, hp]⟩

/-! ### Claims C1 and C10 -/

/-- The first export of the C1 scenario: its workload succeeds. -/
def c1ExportA : BootcExport := ⟨"qcow2", none⟩

/-- The second export of the C1 scenario: its workload fails. -/
def c1ExportB : BootcExport := ⟨"iso", none⟩

/-- A build requesting two disk-image exports. -/
def c1Build : ImageBuildM :=
  { name := "b", annotations := none, creationTimestamp := none,
    spec := { hasFlightctlConfig := false, containerRegistryUrl := none,
              bootcExports := some [c1ExportA, c1ExportB] },
    status := none }

/-- Stage outcomes for the C1 scenario: every stage succeeds except the iso
export workload. -/
def c1Env : BuildStageOutcomes :=
  { certOutcome := .ok ("", ""), genOutcome := .ok "FROM quay.io/x",
    containerOutcome := .ok "b:latest",
    exportFail := fun e =>
      if e.type = "iso" then some ("bootc job failed: disk full", ["log"])
      else none,
    storeOutcome := fun r => some r.path,
    cancelLogs := [], cancelWrite := ⟨none, 200⟩ }

/-- No cancellation is observed at any stage boundary. -/
def noCancelPolls : CancelPolls := ⟨false, false, false, false, false⟩

/-- Claim C1 counterexample: a build with two requested exports where the
qcow2 workload succeeds and the iso workload fails ends in phase Failed, not
Completed: BuildBootcImages aborts on the first failing export and BuildImage
routes the error to failBuild, so the successful subset is discarded and the
overall phase is Failed even though one export succeeded. -/
theorem C1_counterexample :
    c1Env.exportFail c1ExportA = none ∧
    c1Env.exportFail c1ExportB ≠ none ∧
    (buildImage noCancelPolls c1Env c1Build 100).1.phase = some "Failed" ∧
    (buildImage noCancelPolls c1Env c1Build 100).1.phase ≠ some "Completed" := by
  refine ⟨by decide, by decide, by decide, by decide⟩

/-- Claim C1 as amended: for a build whose earlier stages succeed and which
observes no cancellation, the phase is Completed exactly when every requested
export workload succeeds (vacuously when none are requested), and Failed as
soon as any export workload fails, regardless of how many others succeeded;
tolerance of partial failure applies only to the storage-resolution step. -/
theorem C1_amended_completed_iff_all_exports_succeed
    (env : BuildStageOutcomes) (ib : ImageBuildM) (now : Nat)
    (es : List BootcExport)
    (hcert : ∃ ck, env.certOutcome = Except.ok ck)
    (hgen : ∃ cf, env.genOutcome = Except.ok cf)
    (hcon : ∃ ref, env.containerOutcome = Except.ok ref)
    (hexp : ib.spec.bootcExports = some es) :
    ((∀ e ∈ es, env.exportFail e = none) →
      (buildImage noCancelPolls env ib now).1.phase = some "Completed") ∧
    ((∃ e ∈ es, env.exportFail e ≠ none) →
      (buildImage noCancelPolls env ib now).1.phase = some "Failed") := by
  obtain ⟨ck, hck⟩ := hcert
  obtain ⟨cf, hcf⟩ := hgen
  obtain ⟨ref, href⟩ := hcon
  constructor
  · intro hall
    cases hes : es with
    | nil =>
      subst hes
      cases hb : ib.spec.hasFlightctlConfig <;>
        simp [buildImage, noCancelPolls, Except.map, hb, hck, hcf, href, hexp,
          completeBuild_phase]
    | cons e rest =>
      obtain ⟨rs, hrs⟩ := buildBootcImages_ok_of_all ib.name env.exportFail es hall
      subst hes
      cases hb : ib.spec.hasFlightctlConfig <;>
        simp [buildImage, noCancelPolls, Except.map, hb, hck, hcf, href, hexp, hrs,
          completeBuild_phase]
  · intro hsome
    obtain ⟨err, herr⟩ :=
      buildBootcImages_error_of_exists ib.name env.exportFail es hsome
    cases hes : es with
    | nil =>
      subst hes
      rcases hsome with ⟨e, he, _⟩
      cases he
    | cons e rest =>
      obtain ⟨emsg, elogs⟩ := err
      subst hes
      cases hb : ib.spec.hasFlightctlConfig <;>
        simp [buildImage, noCancelPolls, Except.map, hb, hck, hcf, href, hexp, herr,
          failBuild_phase]

/-- Stage outcomes where every export workload succeeds. -/
def c1EnvOk : BuildStageOutcomes :=
  { certOutcome := .ok ("", ""), genOutcome := .ok "FROM quay.io/x",
    containerOutcome := .ok "b:latest",
    exportFail := fun _ => none,
    storeOutcome := fun r => some r.path,
    cancelLogs := [], cancelWrite := ⟨none, 200⟩ }

/-- Claim C1 witness: the amended theorem applied at a concrete build with
two exports whose workloads both succeed. -/
theorem C1_witness :
    (buildImage noCancelPolls c1EnvOk c1Build 100).1.phase = some "Completed" :=
  (C1_amended_completed_iff_all_exports_succeed c1EnvOk c1Build 100
    [c1ExportA, c1ExportB] ⟨("", ""), rfl⟩ ⟨"FROM quay.io/x", rfl⟩
    ⟨"b:latest", rfl⟩ rfl).1 (by decide)

/-- Claim C10: storage-resolution failures in step 5 of BuildImage are
skipped (the loop continues with the remaining results) and never fail the
build: with all export workloads succeeding the build reaches Completed for
every storage outcome, and when every resolution fails the Completed status
carries no bootcImageRefs at all, even though exports were requested and
their workloads succeeded. -/
theorem C10_storage_failures_are_skipped
    (env : BuildStageOutcomes) (ib : ImageBuildM) (now : Nat)
    (es : List BootcExport)
    (hcert : ∃ ck, env.certOutcome = Except.ok ck)
    (hgen : ∃ cf, env.genOutcome = Except.ok cf)
    (hcon : ∃ ref, env.containerOutcome = Except.ok ref)
    (hexp : ib.spec.bootcExports = some es)
    (hne : es ≠ [])
    (hall : ∀ e ∈ es, env.exportFail e = none)
    (hst : ib.status = none)
    (hstore : ∀ r, env.storeOutcome r = none) :
    (buildImage noCancelPolls env ib now).1.phase = some "Completed" ∧
    (buildImage noCancelPolls env ib now).1.bootcImageRefs = none := by
  obtain ⟨ck, hck⟩ := hcert
  obtain ⟨cf, hcf⟩ := hgen
  obtain ⟨ref, href⟩ := hcon
  obtain ⟨rs, hrs⟩ := buildBootcImages_ok_of_all ib.name env.exportFail es hall
  have hrefs : rs.filterMap (fun r =>
      (env.storeOutcome r).map (fun p =>
        ({ type := r.type, architecture := some r.architecture,
           storageRef := p } : BootcImageRef))) = [] := by
    apply List.filterMap_eq_nil_iff.mpr
    intro a _
    rw [hstore a]
    rfl
  cases hes : es with
  | nil => exact absurd hes hne
  | cons e rest =>
    subst hes
    constructor
    · cases hb : ib.spec.hasFlightctlConfig <;>
        simp [buildImage, noCancelPolls, Except.map, hb, hck, hcf, href, hexp, hrs,
          completeBuild_phase]
    · cases hb : ib.spec.hasFlightctlConfig <;>
        simp [buildImage, noCancelPolls, Except.map, hb, hck, hcf, href, hexp, hrs, hrefs,
          completeBuild_bootcRefs_nil, updateStatus_bootcRefs,
          updateStatusWithContainerImage_bootcRefs, hst]

/-- A build with one requested export, for the C10 witness. -/
def c10Build : ImageBuildM :=
  { name := "b2", annotations := none, creationTimestamp := none,
    spec := { hasFlightctlConfig := false, containerRegistryUrl := none,
              bootcExports := some [⟨"ami", none⟩] },
    status := none }

/-- Stage outcomes where the export workload succeeds and every storage
resolution fails. -/
def c10Env : BuildStageOutcomes :=
  { certOutcome := .ok ("", ""), genOutcome := .ok "FROM quay.io/y",
    containerOutcome := .ok "b2:latest",
    exportFail := fun _ => none,
    storeOutcome := fun _ => none,
    cancelLogs := [], cancelWrite := ⟨none, 200⟩ }

/-- Claim C10 witness: the theorem applied at a concrete build whose single
export workload succeeds while its storage resolution fails. -/
theorem C10_witness :
    (buildImage noCancelPolls c10Env c10Build 50).1.phase = some "Completed" ∧
    (buildImage noCancelPolls c10Env c10Build 50).1.bootcImageRefs = none :=
  C10_storage_failures_are_skipped c10Env c10Build 50 [⟨"ami", none⟩]
    ⟨("", ""), rfl⟩ ⟨"FROM quay.io/y", rfl⟩ ⟨"b2:latest", rfl⟩ rfl
    (by decide) (by decide) rfl (fun r => rfl)

/-! ### Lemmas about the BuildManager classification predicates -/

/-- The in-memory copy of a build after handleRetry deletes the retry
annotation. -/
def stripRetry (ib : ImageBuildM) : ImageBuildM :=
  { ib with annotations :=
      annRemove ib.annotations "imagebuilder.flightctl.io/retry" }

theorem lookup_filter_not_key (l : List (String × String)) (k : String) :
    (l.filter (fun kv => kv.1 ≠ k)).lookup k = none := by
  induction l with
  | nil => rfl
  | cons kv rest ih =>
    obtain ⟨k1, v1⟩ := kv
    by_cases hk : k1 = k
    · have h1 : (decide ((k1, v1).1 ≠ k)) = false := by simp [hk]
      simp only [List.filter_cons, h1, Bool.false_eq_true, if_false]
      exact ih
    · have h1 : (decide ((k1, v1).1 ≠ k)) = true := by simp [hk]
      have h2 : (k == k1) = false := beq_eq_false_iff_ne.mpr (Ne.symm hk)
      simp only [List.filter_cons, h1, if_true, List.lookup, h2]
      exact ih

theorem annLookup_annRemove (ann : Option (List (String × String)))
    (k : String) : annLookup (annRemove ann k) k = none := by
  cases ann with
  | none => rfl
  | some l => simpa [annLookup, annRemove] using lookup_filter_not_key l k

theorem processable_not_cancelable_not_retriable (ib : ImageBuildM)
    (h : shouldProcessBuild ib = true) :
    shouldCancelBuild ib = false ∧ shouldRetryBuild ib = false := by
  obtain ⟨nm, ann, ts, sp, status⟩ := ib
  cases status with
  | none => exact ⟨rfl, rfl⟩
  | some st =>
    obtain ⟨ph, msg, cir, bir, stt, ct, lg⟩ := st
    cases ph with
    | none => exact ⟨rfl, rfl⟩
    | some p =>
      simp only [shouldProcessBuild] at h
      have h2 : p = "" ∨ p = "Pending" := by simpa using h
      rcases h2 with h1 | h1 <;> subst h1 <;> exact ⟨rfl, rfl⟩

theorem retriable_not_processable_not_cancelable (ib : ImageBuildM)
    (h : shouldRetryBuild ib = true) :
    shouldProcessBuild ib = false ∧ shouldCancelBuild ib = false := by
  obtain ⟨nm, ann, ts, sp, status⟩ := ib
  cases status with
  | none => cases h
  | some st =>
    obtain ⟨ph, msg, cir, bir, stt, ct, lg⟩ := st
    cases ph with
    | none => cases h
    | some p =>
      simp only [shouldRetryBuild] at h
      by_cases hf : p = "Failed"
      · subst hf
        exact ⟨rfl, rfl⟩
      · rw [if_neg (by simpa using hf)] at h
        cases h

/-! ### Claims C2 and C4 -/

/-- A build observed in phase Pending with no annotations. -/
def c2Build : ImageBuildM :=
  { name := "b", annotations := none, creationTimestamp := none,
    spec := { hasFlightctlConfig := false, containerRegistryUrl := none,
              bootcExports := none },
    status := some { phase := some "Pending" } }

/-- Claim C2 counterexample: the BuildManager keeps no in-flight set.  Two
consecutive reconcile ticks that both observe the same build in phase Pending
both dispatch a background Orchestrator task for it (the manager state of the
first tick is threaded into the second), so a second concurrent task IS
dispatched, contrary to the claimed at-most-once dispatch. -/
theorem C2_counterexample :
    shouldProcessBuild c2Build = true ∧
    (processTick 0 [] [c2Build]).2.dispatched = [c2Build] ∧
    (processTick 10 (processTick 0 [] [c2Build]).1 [c2Build]).2.dispatched
      = [c2Build] := by
  refine ⟨by decide, by decide, by decide⟩

/-- Claim C2 as amended: the BuildManager maintains no process-local
in-flight set; its only in-memory map is the recentlyCancelled deduplication
for cancellations.  A build is dispatched exactly when its phase is absent,
empty, or Pending, and EVERY tick observing such a build dispatches a fresh
background Orchestrator task, regardless of the manager state carried over
from earlier ticks; only the status transition to Building performed by the
first task stops later ticks from re-dispatching. -/
theorem C2_amended_every_tick_dispatches :
    (∀ ib : ImageBuildM, shouldProcessBuild ib = true ↔
      (ib.status = none ∨ ∃ st, ib.status = some st ∧
        (st.phase = none ∨ st.phase = some "" ∨ st.phase = some "Pending"))) ∧
    (∀ (now : Nat) (rc : List (String × Nat)) (ib : ImageBuildM),
      shouldProcessBuild ib = true →
      (processTick now rc [ib]).2.dispatched = [ib]) := by
  constructor
  · intro ib
    obtain ⟨nm, ann, ts, sp, status⟩ := ib
    cases status with
    | none => simp [shouldProcessBuild]
    | some st =>
      obtain ⟨ph, msg, cir, bir, stt, ct, lg⟩ := st
      cases ph with
      | none => simp [shouldProcessBuild]
      | some p =>
        simp only [shouldProcessBuild]
        constructor
        · intro h
          have h2 : p = "" ∨ p = "Pending" := by simpa using h
          refine Or.inr ⟨_, rfl, ?_⟩
          rcases h2 with h1 | h1 <;> subst h1
          · exact Or.inr (Or.inl rfl)
          · exact Or.inr (Or.inr rfl)
        · rintro (hc | ⟨st2, hst2, hc⟩)
          · cases hc
          · injection hst2 with hst2
            subst hst2
            rcases hc with h0 | h0 | h0
            · have h0x : some p = none := h0
              cases h0x
            · have h0x : some p = some "" := h0
              injection h0x with h0x
              subst h0x
              rfl
            · have h0x : some p = some "Pending" := h0
              injection h0x with h0x
              subst h0x
              rfl
  · intro now rc ib h
    obtain ⟨hc, hr⟩ := processable_not_cancelable_not_retriable ib h
    simp [processTick, processBuildList, processOneBuild, h, hc, hr,
      TickEffects.append, TickEffects.none]

/-- Claim C2 witness: the amended theorem applied at a concrete Pending
build, discharging its hypothesis there. -/
theorem C2_witness :
    (processTick 5 [("other", 1)] [c2Build]).2.dispatched = [c2Build] :=
  C2_amended_every_tick_dispatches.2 5 [("other", 1)] c2Build (by decide)

/-- A Failed build carrying the retry annotation. -/
def c4Build : ImageBuildM :=
  { name := "b",
    annotations := some [("imagebuilder.flightctl.io/retry", "true")],
    creationTimestamp := none,
    spec := { hasFlightctlConfig := false, containerRegistryUrl := none,
              bootcExports := none },
    status := some { phase := some "Failed" } }

/-- Claim C4 counterexample: a tick observing a Failed build with retry=true
dispatches the re-run but issues NO patch against the catalog (handleRetry
only deletes the key from its in-memory copy), so the stored resource, whose
annotations change only through patches, still carries retry=true after the
retry is observed. -/
theorem C4_counterexample :
    shouldRetryBuild c4Build = true ∧
    (processTick 0 [] [c4Build]).2.patches = [] ∧
    (processTick 0 [] [c4Build]).2.dispatched ≠ [] ∧
    annLookup c4Build.annotations "imagebuilder.flightctl.io/retry"
      = some "true" := by
  refine ⟨by decide, by decide, by decide, by decide⟩

/-- Claim C4 as amended: on observing a Failed build with retry=true the
ReconcileLoop strips the retry annotation only from the in-memory copy it
hands to the dispatched re-run — that copy no longer carries the annotation —
but it issues no JSON patch (nor any other write) against the catalog
resource, so the stored resource retains the annotation after the retry is
observed. -/
theorem C4_amended_retry_strips_only_locally :
    ∀ (now : Nat) (rc : List (String × Nat)) (ib : ImageBuildM),
      shouldRetryBuild ib = true →
      (processTick now rc [ib]).2.patches = [] ∧
      (processTick now rc [ib]).2.dispatched = [stripRetry ib] ∧
      annLookup (stripRetry ib).annotations "imagebuilder.flightctl.io/retry"
        = none := by
  intro now rc ib h
  obtain ⟨hp, hc⟩ := retriable_not_processable_not_cancelable ib h
  refine ⟨?_, ?_, annLookup_annRemove ib.annotations _⟩ <;>
    simp [processTick, processBuildList, processOneBuild, handleRetry,
      stripRetry, h, hp, hc, TickEffects.append, TickEffects.none]

/-- Claim C4 witness: the amended theorem applied at the concrete Failed
build with the retry annotation, discharging its hypothesis there. -/
theorem C4_witness :
    (processTick 3 [] [c4Build]).2.patches = [] ∧
    (processTick 3 [] [c4Build]).2.dispatched = [stripRetry c4Build] ∧
    annLookup (stripRetry c4Build).annotations "imagebuilder.flightctl.io/retry"
      = none :=
  C4_amended_retry_strips_only_locally 3 [] c4Build (by decide)


/-! ### Claim C7 -/

theorem mem_activeBuildNames (builds : List ImageBuildM) (ib : ImageBuildM)
    (st : ImageBuildStatus) (p : String) (hib : ib ∈ builds)
    (hst : ib.status = some st) (hp : st.phase = some p)
    (hact : isActiveBuildPhase p = true) :
    ib.name ∈ activeBuildNames builds := by
  unfold activeBuildNames
  apply List.mem_map.mpr
  refine ⟨ib, ?_, rfl⟩
  apply List.mem_filter.mpr
  exact ⟨hib, by simp [hst, hp, hact]⟩

/-- Claim C7: a (workload, configmap) pair is marked orphaned only when some
pod carries the job-name label with a build- name whose derived build is not
in the active set and whose creation is at least one hour old; in particular
a workload whose owning ImageBuild is in an active phase (Building, Queued or
Pending) is never deleted, regardless of the age of its pods. -/
theorem C7_cleanup_deletes_only_old_inactive :
    (∀ (now : Nat) (builds : List ImageBuildM) (pods : List PodM)
        (job cfgmap : String),
      (job, cfgmap) ∈ collectOrphans now (activeBuildNames builds) pods →
      ∃ pod ∈ pods,
        pod.labels.lookup "job-name" = some job ∧
        goHasPre job "build-" = true ∧
        goTrimPre job "build-" ∉ activeBuildNames builds ∧
        3600 ≤ now - pod.creationTime ∧
        cfgmap = "containerfile-" ++ goTrimPre job "build-") ∧
    (∀ (now : Nat) (builds : List ImageBuildM) (pods : List PodM)
        (ib : ImageBuildM) (st : ImageBuildStatus) (p : String),
      ib ∈ builds → ib.status = some st → st.phase = some p →
      isActiveBuildPhase p = true →
      ∀ job cfgmap,
        (job, cfgmap) ∈ collectOrphans now (activeBuildNames builds) pods →
        goTrimPre job "build-" ≠ ib.name) := by
  have part1 : ∀ (now : Nat) (builds : List ImageBuildM) (pods : List PodM)
      (job cfgmap : String),
      (job, cfgmap) ∈ collectOrphans now (activeBuildNames builds) pods →
      ∃ pod ∈ pods,
        pod.labels.lookup "job-name" = some job ∧
        goHasPre job "build-" = true ∧
        goTrimPre job "build-" ∉ activeBuildNames builds ∧
        3600 ≤ now - pod.creationTime ∧
        cfgmap = "containerfile-" ++ goTrimPre job "build-" := by
    intro now builds pods job cfgmap hmem
    obtain ⟨pod, hpod, hcand⟩ := List.mem_filterMap.mp hmem
    refine ⟨pod, hpod, ?_⟩
    unfold podOrphanCandidate at hcand
    cases hl : pod.labels.lookup "job-name" with
    | none => rw [hl] at hcand; cases hcand
    | some jobName =>
      rw [hl] at hcand
      by_cases h1 : goHasPre jobName "build-" = true
      · by_cases h2 : (activeBuildNames builds).contains
            (goTrimPre jobName "build-") = true
        · simp [h1, h2] at hcand
          exact absurd (show goTrimPre jobName "build-" ∈ activeBuildNames builds
            by simpa using h2) hcand.1
        · by_cases h3 : now - pod.creationTime < 3600
          · simp [h1, h2, h3] at hcand
          · simp [h1, h2, h3] at hcand
            obtain ⟨hj, hjob, hcfg⟩ := hcand
            subst hjob
            exact ⟨rfl, h1, hj, Nat.le_of_not_lt h3, hcfg.symm⟩
      · simp [h1] at hcand
  refine ⟨part1, ?_⟩
  intro now builds pods ib st p hib hst hp hact job cfgmap hmem heq
  obtain ⟨pod, _, _, _, hnot, _⟩ := part1 now builds pods job cfgmap hmem
  exact hnot (heq ▸ mem_activeBuildNames builds ib st p hib hst hp hact)

/-- An ImageBuild in active phase Building, for the C7 witness. -/
def c7ActiveBuild : ImageBuildM :=
  { name := "alive", annotations := none, creationTimestamp := none,
    spec := { hasFlightctlConfig := false, containerRegistryUrl := none,
              bootcExports := none },
    status := some { phase := some "Building" } }

/-- A pod of an orphaned build workload, for the C7 witness. -/
def c7OrphanPod : PodM :=
  { name := "build-ghost-abc", labels := [("job-name", "build-ghost")],
    creationTime := 0 }

/-- An aged pod of the active build, for the C7 witness. -/
def c7ActivePod : PodM :=
  { name := "build-alive-xyz", labels := [("job-name", "build-alive")],
    creationTime := 0 }

/-- Claim C7 witness: the theorem applied at a concrete cleanup pass over an
aged orphan pod and an equally aged pod of an active build, discharging every
hypothesis there. -/
theorem C7_witness :
    (∃ pod ∈ [c7OrphanPod, c7ActivePod],
      pod.labels.lookup "job-name" = some "build-ghost" ∧
      goHasPre "build-ghost" "build-" = true ∧
      goTrimPre "build-ghost" "build-" ∉ activeBuildNames [c7ActiveBuild] ∧
      3600 ≤ 50000 - pod.creationTime ∧
      "containerfile-ghost" = "containerfile-" ++ goTrimPre "build-ghost" "build-") ∧
    (∀ job cfgmap,
      (job, cfgmap) ∈ collectOrphans 50000 (activeBuildNames [c7ActiveBuild])
        [c7OrphanPod, c7ActivePod] →
      goTrimPre job "build-" ≠ "alive") :=
  ⟨C7_cleanup_deletes_only_old_inactive.1 50000 [c7ActiveBuild]
     [c7OrphanPod, c7ActivePod] "build-ghost" "containerfile-ghost" (by decide),
   fun job cfgmap hmem =>
     C7_cleanup_deletes_only_old_inactive.2 50000 [c7ActiveBuild]
       [c7OrphanPod, c7ActivePod] c7ActiveBuild { phase := some "Building" }
       "Building" (by decide) rfl rfl (by decide) job cfgmap hmem⟩

/-! ### Claim C6 -/

/-- Claim C6: the upload endpoint answers 503 when no UPLOAD_TOKEN is
configured; 401 (with nothing written to storage) when the Authorization
header is absent, not a Bearer header, or carries a different token; with a
valid token it answers 400 for an unparsable multipart stream, a missing
file part, or missing imageName/imageType (which includes metadata sent only
after the file part, since the scan stops at the file part with the metadata
still empty); 500 on a storage-backend error; and on success a JSON summary
with success, imageName, imageType, storageType, storagePath and size. -/
theorem C6_upload_endpoint_behaviour :
    (∀ store req, uploadEndpoint "" store req = ⟨503, none, none⟩) ∧
    (∀ tok store req, tok ≠ "" →
      (req.authHeader = "" ∨ goHasPre req.authHeader "Bearer " = false ∨
       goTrimPre req.authHeader "Bearer " ≠ tok) →
      uploadEndpoint tok store req = ⟨401, none, none⟩) ∧
    (∀ tok store req, tok ≠ "" → req.authHeader = "Bearer " ++ tok →
      uploadEndpoint tok store req = handleUploadArtifact store req) ∧
    (∀ store req, req.multipartOk = false →
      handleUploadArtifact store req = ⟨400, none, none⟩) ∧
    (∀ store req, req.multipartOk = true →
      scanUploadEvents "" "" "" req.events = .error () →
      handleUploadArtifact store req = ⟨400, none, none⟩) ∧
    (∀ store req iN iT aR fp, req.multipartOk = true →
      scanUploadEvents "" "" "" req.events = .ok (iN, iT, aR, fp) →
      (iN = "" ∨ iT = "") →
      handleUploadArtifact store req = ⟨400, none, none⟩) ∧
    (∀ store req iN iT aR, req.multipartOk = true →
      scanUploadEvents "" "" "" req.events = .ok (iN, iT, aR, none) →
      handleUploadArtifact store req = ⟨400, none, none⟩) ∧
    (∀ store req iN iT aR fn, req.multipartOk = true →
      scanUploadEvents "" "" "" req.events = .ok (iN, iT, aR, some fn) →
      iN ≠ "" → iT ≠ "" → store iN iT = none →
      handleUploadArtifact store req = ⟨500, none, none⟩) ∧
    (∀ store req iN iT aR fn ref, req.multipartOk = true →
      scanUploadEvents "" "" "" req.events = .ok (iN, iT, aR, some fn) →
      iN ≠ "" → iT ≠ "" → store iN iT = some ref →
      handleUploadArtifact store req =
        ⟨200, some ref.storagePath,
         some ⟨true, iN, iT, ref.storageType, ref.storagePath, ref.size⟩⟩) ∧
    (∀ fn rest, scanUploadEvents "" "" "" (UploadEvent.file fn :: rest)
        = .ok ("", "", "", some fn)) := by
  refine ⟨?_, ?_, ?_, ?_, ?_, ?_, ?_, ?_, ?_, ?_⟩
  · intro store req
    simp [uploadEndpoint]
  · intro tok store req ht hcase
    rcases hcase with ha | hb | hc
    · simp [uploadEndpoint, ht, ha]
    · by_cases ha : req.authHeader = ""
      · simp [uploadEndpoint, ht, ha]
      · simp [uploadEndpoint, ht, ha, hb]
    · by_cases ha : req.authHeader = ""
      · simp [uploadEndpoint, ht, ha]
      · by_cases hb : goHasPre req.authHeader "Bearer " = true
        · simp [uploadEndpoint, ht, ha, hb, hc]
        · simp [uploadEndpoint, ht, ha, hb]
  · intro tok store req ht hh
    have h1 : req.authHeader ≠ "" := by
      rw [hh]; exact append_ne_empty_of_pre_ne "Bearer " tok (by decide)
    have h2 : goHasPre req.authHeader "Bearer " = true := by
      rw [hh]; exact goHasPre_append "Bearer " tok
    have h3 : goTrimPre req.authHeader "Bearer " = tok := by
      rw [hh]; exact goTrimPre_append "Bearer " tok
    simp [uploadEndpoint, ht, h1, h2, h3]
  · intro store req h
    simp [handleUploadArtifact, h]
  · intro store req hmp hscan
    simp [handleUploadArtifact, hmp, hscan]
  · intro store req iN iT aR fp hmp hscan hmeta
    rcases hmeta with hm | hm <;>
      simp [handleUploadArtifact, hmp, hscan, hm]
  · intro store req iN iT aR hmp hscan
    by_cases hm : iN = "" ∨ iT = "" <;>
      simp [handleUploadArtifact, hmp, hscan, hm]
  · intro store req iN iT aR fn hmp hscan hn ht hstore
    simp [handleUploadArtifact, hmp, hscan, hn, ht, hstore]
  · intro store req iN iT aR fn ref hmp hscan hn ht hstore
    simp [handleUploadArtifact, hmp, hscan, hn, ht, hstore]
  · intro fn rest
    rfl

/-- The storage oracle for the C6 witness. -/
def c6Store : String → String → Option StoredRef := fun n t =>
  if n = "img" ∧ t = "qcow2" then
    some ⟨"pvc", "/mnt/pvc/vol/img/qcow2.qcow2", 42⟩
  else none

/-- A fully well-formed upload request, for the C6 witness. -/
def c6GoodReq : UploadRequest :=
  { authHeader := "Bearer " ++ "tok", multipartOk := true,
    events := [.field "imageName" "img", .field "imageType" "qcow2",
               .field "architecture" "x86_64", .file "disk.qcow2"] }

/-- A request whose metadata arrives only after the file part, for the C6
witness. -/
def c6LateMetaReq : UploadRequest :=
  { authHeader := "Bearer " ++ "tok", multipartOk := true,
    events := [.file "disk.qcow2", .field "imageName" "img",
               .field "imageType" "qcow2"] }

/-- Claim C6 witness: the theorem applied at concrete requests, discharging
every hypothesis there. -/
theorem C6_witness :
    uploadEndpoint "" c6Store c6GoodReq = ⟨503, none, none⟩ ∧
    uploadEndpoint "tok" c6Store
      { c6GoodReq with authHeader := "Bearer wrong" } = ⟨401, none, none⟩ ∧
    uploadEndpoint "tok" c6Store c6GoodReq
      = handleUploadArtifact c6Store c6GoodReq ∧
    handleUploadArtifact c6Store c6GoodReq =
      ⟨200, some "/mnt/pvc/vol/img/qcow2.qcow2",
       some ⟨true, "img", "qcow2", "pvc", "/mnt/pvc/vol/img/qcow2.qcow2", 42⟩⟩ ∧
    handleUploadArtifact c6Store c6LateMetaReq = ⟨400, none, none⟩ :=
  ⟨C6_upload_endpoint_behaviour.1 c6Store c6GoodReq,
   C6_upload_endpoint_behaviour.2.1 "tok" c6Store
     { c6GoodReq with authHeader := "Bearer wrong" } (by decide)
     (Or.inr (Or.inr (by decide))),
   C6_upload_endpoint_behaviour.2.2.1 "tok" c6Store c6GoodReq (by decide) rfl,
   C6_upload_endpoint_behaviour.2.2.2.2.2.2.2.2.1 c6Store c6GoodReq
     "img" "qcow2" "x86_64" "disk.qcow2"
     ⟨"pvc", "/mnt/pvc/vol/img/qcow2.qcow2", 42⟩ rfl rfl
     (by decide) (by decide) (by decide),
   C6_upload_endpoint_behaviour.2.2.2.2.2.1 c6Store c6LateMetaReq
     "" "" "" (some "disk.qcow2") rfl rfl (Or.inl rfl)⟩

end Flightctl
